import Mathlib

set_option maxRecDepth 8192

/-!
Verification of the resilient command-execution and fallback-orchestration
engine of the `supabase-next-project-initializer` repository, shallowly
embedded from `src/lib/project-initializer.js` and `src/lib/error-handler.js`.

Modelling conventions:
* A JavaScript failure value is a `JSError` with an optional `message`
  (absent or non-string messages are `none`: reading `.includes` of them
  throws a `TypeError`), an optional `code` and an optional `signal`.
* JS `String.prototype.includes` is `jsIncludes`, a plain substring search.
* Expressions that can throw are `JsResult _` (a value, or a thrown failure).
* The executor `executeWithRetry` is embedded as a fuel-indexed loop
  (`executeWithRetryGo`); the fuel `maxRetries + 1` is an upper bound on the
  number of iterations of the source's `while (retryCount <= maxRetries)`
  loop, whose body either returns, throws, or increments `retryCount`
  (only when `retryCount < maxRetries`).
-/

/-- Substring match at the head of a character list
(helper for the embedding of JS `String.prototype.includes`). -/
def charsStartWith : List Char → List Char → Bool
  | [], _ => true
  | _ :: _, [] => false
  | a :: as, b :: bs => a == b && charsStartWith as bs

/-- Substring occurrence anywhere in a character list
(helper for the embedding of JS `String.prototype.includes`). -/
def charsContain (pat : List Char) : List Char → Bool
  | [] => pat.isEmpty
  | c :: rest => charsStartWith pat (c :: rest) || charsContain pat rest

/-- Embedding of JS `str.includes(pat)`: `pat` occurs as a contiguous
substring of `str`. -/
def jsIncludes (str pat : String) : Bool :=
  charsContain pat.toList str.toList

/-- A JavaScript failure value as the source inspects it: `message` is
`none` when the field is absent or not a string (so that reading
`.includes` on it throws), `code` is the optional `error.code` string,
`signal` the optional termination signal (`error.signal`). -/
structure JSError where
  message : Option String
  code : Option String
  signal : Option String
deriving DecidableEq

/-- Result of evaluating a JS expression: a value, or a thrown failure. -/
inductive JsResult (α : Type) where
  | value : α → JsResult α
  | thrown : JSError → JsResult α
deriving DecidableEq

/-- A thrown `TypeError` carries only a message. -/
def jsTypeError (m : String) : JSError := ⟨some m, none, none⟩

/-- The `TypeError` raised by `error.message.includes(...)` when
`error.message` is absent. -/
def undefinedIncludesError : JSError :=
  jsTypeError "TypeError: Cannot read properties of undefined (reading \x27includes\x27)"

/-- The `TypeError` raised by calling `errorHandler.handleProcessError`,
which `src/lib/error-handler.js` does not define or export
(its `module.exports`, lines 91-96, has no such member). -/
def handleProcessErrorMissing : JSError :=
  jsTypeError "TypeError: errorHandler.handleProcessError is not a function"

/-- The transient-failure test of `executeWithRetry`
(`src/lib/project-initializer.js` lines 107-113): message contains
`context canceled` or `timed out`, or code is `ETIMEDOUT`, `ECONNRESET`
or `ECONNREFUSED`. Reading `.includes` of an absent message throws. -/
def isTransientError (e : JSError) : JsResult Bool :=
  match e.message with
  | none => .thrown undefinedIncludesError
  | some m =>
    .value (jsIncludes m "context canceled" || jsIncludes m "timed out" ||
      e.code == some "ETIMEDOUT" || e.code == some "ECONNRESET" ||
      e.code == some "ECONNREFUSED")

/-- The process-failure test of the per-task error dispatch
(`src/lib/project-initializer.js` lines 34-37, 150-153, 168-171, ...):
message contains `context canceled` or `timed out`, or code is
`ETIMEDOUT`, or a termination signal is present. The caller has already
read `message` as the string `m`. -/
def procKind (m : String) (e : JSError) : Bool :=
  jsIncludes m "context canceled" || jsIncludes m "timed out" ||
    e.code == some "ETIMEDOUT" || e.signal.isSome

/-- Result of one `executeWithRetry` call: normal return, propagation of
the last attempt's failure (`throw error`), or a secondary `TypeError`
raised by the transient-failure test itself. -/
inductive ExecResult where
  | ok : ExecResult
  | err : JSError → ExecResult
  | crash : JSError → ExecResult
deriving DecidableEq

/-- Observable trace of one `executeWithRetry` call: its result, how many
attempts it performed, and the backoff delays slept between consecutive
attempts, in order. -/
structure ExecTrace where
  result : ExecResult
  attempts : Nat
  delays : List Nat
deriving DecidableEq

/-- The retry loop of `executeWithRetry`
(`src/lib/project-initializer.js` lines 65-130). `cmd i` is the outcome
of attempt `i` (`none` = the command completed, `some e` = the attempt
raised `e`). The loop `while (retryCount <= maxRetries)` either returns
on success, rethrows a non-transient or retries-exhausted failure, or
sleeps `min(1000 * 2 ^ retryCount, 10000)` ms (line 120) and retries with
`retryCount + 1`. `fuel` bounds the remaining iterations. -/
def executeWithRetryGo (cmd : Nat → Option JSError) (maxRetries : Nat) :
    Nat → Nat → ExecTrace
  | _, 0 => ⟨.ok, 0, []⟩
  | retryCount, fuel + 1 =>
    if retryCount ≤ maxRetries then
      match cmd retryCount with
      | none => ⟨.ok, 1, []⟩
      | some e =>
        match isTransientError e with
        | .thrown t => ⟨.crash t, 1, []⟩
        | .value b =>
          if b ∧ retryCount < maxRetries then
            let rest := executeWithRetryGo cmd maxRetries (retryCount + 1) fuel
            ⟨rest.result, rest.attempts + 1, min (1000 * 2 ^ retryCount) 10000 :: rest.delays⟩
          else ⟨.err e, 1, []⟩
    else ⟨.ok, 0, []⟩

/-- `executeWithRetry(command, args, options, maxRetries, timeout)` of
`src/lib/project-initializer.js` lines 65-130, abstracted over the
behaviour `cmd` of its attempts. The loop starts at `retryCount = 0` and
performs at most `maxRetries + 1` iterations. -/
def executeWithRetry (cmd : Nat → Option JSError) (maxRetries : Nat) : ExecTrace :=
  executeWithRetryGo cmd maxRetries 0 (maxRetries + 1)

/-- The child process of one attempt: `exitsAt = some t` means the process
exits on its own after `t` ms (raising `failure` if any), `exitsAt = none`
means it never exits on its own. -/
structure ProcAttempt where
  exitsAt : Option Nat
  failure : Option JSError
deriving DecidableEq

/-- The rejection produced by the `setTimeout` race of `executeWithRetry`
(`src/lib/project-initializer.js` line 73). -/
def timeoutError (timeout : Nat) : JSError :=
  ⟨some ("Command timed out after " ++ toString timeout ++ "ms"), none, none⟩

/-- `Promise.race([execPromise, timeoutPromise])`
(`src/lib/project-initializer.js` lines 72-100) for one attempt: the
attempt settles with the process outcome if the process exits within the
deadline, and with the timeout rejection otherwise. The race only
abandons the wait - it sends no signal to the child. -/
def attemptRaise (timeout : Nat) (p : ProcAttempt) : Option JSError :=
  match p.exitsAt with
  | some t => if t ≤ timeout then p.failure else some (timeoutError timeout)
  | none => some (timeoutError timeout)

/-- `executeWithRetry` at the process level: attempt `i` runs the child
process `procs i` raced against the deadline. -/
def executeWithRetryProc (procs : Nat → ProcAttempt) (maxRetries timeout : Nat) :
    ExecTrace :=
  executeWithRetry (fun i => attemptRaise timeout (procs i)) maxRetries

/-- Number of child processes spawned by an `executeWithRetry` call that
are still running after the call returns. The source
(`src/lib/project-initializer.js` lines 70-127) contains no `kill` or
signal delivery anywhere, so each attempted process that never exits on
its own is still running when the call returns. -/
def stillRunningAfterReturn (procs : Nat → ProcAttempt) (t : ExecTrace) : Nat :=
  (List.range t.attempts).countP (fun i => (procs i).exitsAt == none)

/-- The classifier used by the per-task dispatch of
`src/lib/project-initializer.js` (lines 34-45 in `runCreateNextApp` and
the identical copies elsewhere): process-kind failures, then network
codes `ENOTFOUND` / `ECONNREFUSED` / `ECONNRESET`, then the generic
bucket. Reading `.includes` of an absent message throws. -/
inductive DispatchKind where
  | process : DispatchKind
  | network : DispatchKind
  | generic : DispatchKind
deriving DecidableEq

/-- The three-way error classification of the per-task dispatch
(`src/lib/project-initializer.js` lines 34-45). -/
def classifyDispatch (e : JSError) : JsResult DispatchKind :=
  match e.message with
  | none => .thrown undefinedIncludesError
  | some m =>
    if procKind m e then .value .process
    else if e.code == some "ENOTFOUND" || e.code == some "ECONNREFUSED" ||
        e.code == some "ECONNRESET" then .value .network
    else .value .generic

/-- The names exported by `src/lib/error-handler.js`
(`module.exports`, lines 91-96). -/
def errorHandlerExports : List String :=
  ["handleError", "handleDependencyError", "handleNetworkError", "handleFileSystemError"]

/-- A JS member call `errorHandler.fn(e)`: if `fn` is exported the handler
runs and reports `e`; otherwise the member access yields `undefined` and
the call raises a `TypeError`. -/
def callErrorHandler (fn : String) (e : JSError) : JsResult (String × JSError) :=
  if errorHandlerExports.contains fn then .value (fn, e)
  else .thrown (jsTypeError ("TypeError: errorHandler." ++ fn ++ " is not a function"))

/-- The per-task error reporting of `src/lib/project-initializer.js`
(lines 34-45): classify the failure and invoke the corresponding
`errorHandler` member. -/
def dispatchReport (e : JSError) : JsResult (String × JSError) :=
  match classifyDispatch e with
  | .thrown t => .thrown t
  | .value .process => callErrorHandler "handleProcessError" e
  | .value .network => callErrorHandler "handleNetworkError" e
  | .value .generic => callErrorHandler "handleError" e

/-- Outcome of a fallback chain: success of a named strategy, or the
failure value ultimately thrown to the caller. -/
inductive ChainOutcome where
  | success : String → ChainOutcome
  | failure : JSError → ChainOutcome
deriving DecidableEq

/-- Trace of a fallback chain: which strategies were attempted, in order,
and the overall outcome. -/
structure ChainTrace where
  attempted : List String
  outcome : ChainOutcome
deriving DecidableEq

/-- The shared outer `catch` of `initializeSupabase` and
`initializeTailwind` (`src/lib/project-initializer.js` lines 213-231 and
462-480): dispatch on the caught failure - a process-kind failure invokes
the missing `errorHandler.handleProcessError`, so the resulting
`TypeError` propagates instead of `e`; otherwise the (existing) network
or generic handler reports `e` and `throw error` rethrows it. An absent
message makes the dispatch itself throw. -/
def chainOuterCatch (attempted : List String) (e : JSError) : ChainTrace :=
  match e.message with
  | none => ⟨attempted, .failure undefinedIncludesError⟩
  | some m =>
    if procKind m e then ⟨attempted, .failure handleProcessErrorMissing⟩
    else ⟨attempted, .failure e⟩

/-- The failure thrown when both Supabase initialization methods fail
(`src/lib/project-initializer.js` lines 207-210). -/
def supabaseFailedError : JSError :=
  ⟨some ("Failed to initialize Supabase. Please ensure Supabase CLI is installed correctly.\nSee installation instructions at: https://github.com/supabase/cli#install-the-cli"),
    none, none⟩

/-- The failure thrown when every Tailwind initialization method fails
(`src/lib/project-initializer.js` lines 455-458). -/
def tailwindFailedError : JSError :=
  ⟨some ("Failed to initialize Tailwind CSS. Please ensure Tailwind CSS is installed correctly.\nYou may need to manually create tailwind.config.js and postcss.config.js files."),
    none, none⟩

/-- The backend-initialization fallback chain `initializeSupabase`
(`src/lib/project-initializer.js` lines 137-232), abstracted over the
outcomes of its three strategies: `npxR` (`npx supabase init` through
`executeWithRetry`), `directR` (`supabase init` through
`executeWithRetry`) and `finalR` (the last-resort `execSync`). For each
caught strategy failure the source first runs the dispatch (a
process-kind failure invokes the missing `handleProcessError`, whose
`TypeError` escapes to the outer catch), then advances; the `execSync`
strategy is guarded by `directError.message.includes('context canceled')`
(line 178). -/
def initializeSupabase (npxR directR finalR : Option JSError) : ChainTrace :=
  match npxR with
  | none => ⟨["supabase-npx"], .success "supabase-npx"⟩
  | some e1 =>
    match e1.message with
    | none => chainOuterCatch ["supabase-npx"] undefinedIncludesError
    | some m1 =>
      if procKind m1 e1 then chainOuterCatch ["supabase-npx"] handleProcessErrorMissing
      else
        match directR with
        | none => ⟨["supabase-npx", "supabase-direct"], .success "supabase-direct"⟩
        | some e2 =>
          match e2.message with
          | none => chainOuterCatch ["supabase-npx", "supabase-direct"] undefinedIncludesError
          | some m2 =>
            if procKind m2 e2 then
              chainOuterCatch ["supabase-npx", "supabase-direct"] handleProcessErrorMissing
            else if jsIncludes m2 "context canceled" then
              match finalR with
              | none =>
                ⟨["supabase-npx", "supabase-direct", "supabase-final"],
                  .success "supabase-final"⟩
              | some e3 =>
                match e3.message with
                | none =>
                  chainOuterCatch ["supabase-npx", "supabase-direct", "supabase-final"]
                    undefinedIncludesError
                | some m3 =>
                  if procKind m3 e3 then
                    chainOuterCatch ["supabase-npx", "supabase-direct", "supabase-final"]
                      handleProcessErrorMissing
                  else
                    chainOuterCatch ["supabase-npx", "supabase-direct", "supabase-final"]
                      supabaseFailedError
            else chainOuterCatch ["supabase-npx", "supabase-direct"] supabaseFailedError

/-- The CSS-framework fallback chain `initializeTailwind`
(`src/lib/project-initializer.js` lines 345-481), abstracted over the
outcomes of its four strategies: `npxR` (`npx tailwindcss init -p`),
`directR` (`tailwindcss init -p`), `localR`
(`node_modules/.bin/tailwindcss init -p`) and `synthR` (the direct
synthesis of the two config files, lines 406-452; `none` = both writes
succeeded). Each caught failure first runs the dispatch (a process-kind
failure invokes the missing `handleProcessError`, whose `TypeError`
escapes to the outer catch), then advances unconditionally. -/
def initializeTailwind (npxR directR localR synthR : Option JSError) : ChainTrace :=
  match npxR with
  | none => ⟨["tailwind-npx"], .success "tailwind-npx"⟩
  | some e1 =>
    match e1.message with
    | none => chainOuterCatch ["tailwind-npx"] undefinedIncludesError
    | some m1 =>
      if procKind m1 e1 then chainOuterCatch ["tailwind-npx"] handleProcessErrorMissing
      else
        match directR with
        | none => ⟨["tailwind-npx", "tailwind-direct"], .success "tailwind-direct"⟩
        | some e2 =>
          match e2.message with
          | none => chainOuterCatch ["tailwind-npx", "tailwind-direct"] undefinedIncludesError
          | some m2 =>
            if procKind m2 e2 then
              chainOuterCatch ["tailwind-npx", "tailwind-direct"] handleProcessErrorMissing
            else
              match localR with
              | none =>
                ⟨["tailwind-npx", "tailwind-direct", "tailwind-local"],
                  .success "tailwind-local"⟩
              | some e3 =>
                match e3.message with
                | none =>
                  chainOuterCatch ["tailwind-npx", "tailwind-direct", "tailwind-local"]
                    undefinedIncludesError
                | some m3 =>
                  if procKind m3 e3 then
                    chainOuterCatch ["tailwind-npx", "tailwind-direct", "tailwind-local"]
                      handleProcessErrorMissing
                  else
                    match synthR with
                    | none =>
                      ⟨["tailwind-npx", "tailwind-direct", "tailwind-local", "tailwind-synth"],
                        .success "tailwind-synth"⟩
                    | some e4 =>
                      match e4.message with
                      | none =>
                        chainOuterCatch
                          ["tailwind-npx", "tailwind-direct", "tailwind-local", "tailwind-synth"]
                          undefinedIncludesError
                      | some m4 =>
                        if procKind m4 e4 then
                          chainOuterCatch
                            ["tailwind-npx", "tailwind-direct", "tailwind-local",
                              "tailwind-synth"]
                            handleProcessErrorMissing
                        else
                          chainOuterCatch
                            ["tailwind-npx", "tailwind-direct", "tailwind-local",
                              "tailwind-synth"]
                            tailwindFailedError

/-- A file system as a map from paths to file contents. -/
def FsState : Type := String → Option String

/-- `fs.writeFileSync(p, c)`. -/
def fsWrite (s : FsState) (p c : String) : FsState :=
  fun q => if q = p then some c else s q

/-- `path.join(dir, f)`. -/
def joinPath (dir f : String) : String := dir ++ "/" ++ f

/-- The exact contents the synthesis strategy writes to
`tailwind.config.js` (`src/lib/project-initializer.js` lines 415-426). -/
def tailwindConfig : String :=
  "/** @type \x7bimport(\x27tailwindcss\x27).Config\x7d */\nmodule.exports = \x7b\n  content: [\n    \"./app/**/*.\x7bjs,ts,jsx,tsx,mdx\x7d\",\n    \"./pages/**/*.\x7bjs,ts,jsx,tsx,mdx\x7d\",\n    \"./components/**/*.\x7bjs,ts,jsx,tsx,mdx\x7d\",\n  ],\n  theme: \x7b\n    extend: \x7b\x7d,\n  \x7d,\n  plugins: [],\n\x7d"

/-- The exact contents the synthesis strategy writes to
`postcss.config.js` (`src/lib/project-initializer.js` lines 429-434). -/
def postcssConfig : String :=
  "module.exports = \x7b\n  plugins: \x7b\n    tailwindcss: \x7b\x7d,\n    autoprefixer: \x7b\x7d,\n  \x7d,\n\x7d"

/-- The CSS-framework synthesis strategy
(`src/lib/project-initializer.js` lines 410-438): write the fixed
`tailwind.config.js` contents, then the fixed `postcss.config.js`
contents, into the project directory. -/
def initializeTailwindSynthesis (projectPath : String) (s : FsState) : FsState :=
  fsWrite (fsWrite s (joinPath projectPath "tailwind.config.js") tailwindConfig)
    (joinPath projectPath "postcss.config.js") postcssConfig

/-- Trace of `initializeGit` (`src/lib/project-initializer.js` lines
571-610): whether a warning was logged, and the outcome propagated to the
caller. Every failure path logs a warning and returns normally - nothing
is rethrown. -/
structure GitTrace where
  warned : Bool
  result : Option JSError
deriving DecidableEq

/-- `initializeGit` (`src/lib/project-initializer.js` lines 571-610),
abstracted over whether `git --version` succeeds and over the outcome of
the `git init` / `git add` / `git commit` sequence. A missing git is a
warning and an early return (lines 576-581); a failing git operation is
caught, warned about and not rethrown (lines 599-605). -/
def initializeGit (gitInstalled : Bool) (gitOpsR : Option JSError) : GitTrace :=
  if gitInstalled then
    match gitOpsR with
    | none => ⟨false, none⟩
    | some _ => ⟨true, none⟩
  else ⟨true, none⟩

/-- Trace of one scaffolding run: the tasks that executed, in order, and
the outcome propagated to the CLI. -/
structure InitTrace where
  executed : List String
  result : Option JSError
deriving DecidableEq

/-- The task sequencer `initialize` (`src/lib/project-initializer.js`
lines 620-673), abstracted over the outcome of each task (`none` =
the awaited task returned, `some e` = it threw `e`). The tasks run
strictly in order; the first thrown failure is rethrown by the outer
catch (lines 669-672) and aborts everything after it. Version-control
initialization is the embedded `initializeGit`, which never throws. -/
def initializeProject (createNextAppR templateR supabaseR installR tailwindR envR
    scriptR : Option JSError) (gitInstalled : Bool) (gitOpsR : Option JSError) : InitTrace :=
  match createNextAppR with
  | some e => ⟨["createNextApp"], some e⟩
  | none =>
    match templateR with
    | some e => ⟨["createNextApp", "template"], some e⟩
    | none =>
      match supabaseR with
      | some e => ⟨["createNextApp", "template", "supabase"], some e⟩
      | none =>
        match installR with
        | some e =>
          ⟨["createNextApp", "template", "supabase", "installDependencies"], some e⟩
        | none =>
          match tailwindR with
          | some e =>
            ⟨["createNextApp", "template", "supabase", "installDependencies",
              "tailwind"], some e⟩
          | none =>
            match envR with
            | some e =>
              ⟨["createNextApp", "template", "supabase", "installDependencies",
                "tailwind", "configureEnvironment"], some e⟩
            | none =>
              match scriptR with
              | some e =>
                ⟨["createNextApp", "template", "supabase", "installDependencies",
                  "tailwind", "configureEnvironment", "runInitScript"], some e⟩
              | none =>
                match (initializeGit gitInstalled gitOpsR).result with
                | some e =>
                  ⟨["createNextApp", "template", "supabase", "installDependencies",
                    "tailwind", "configureEnvironment", "runInitScript", "git"], some e⟩
                | none =>
                  ⟨["createNextApp", "template", "supabase", "installDependencies",
                    "tailwind", "configureEnvironment", "runInitScript", "git"], none⟩

/-- Closed form of the executor's backoff schedule
(`src/lib/project-initializer.js` line 120): the delays slept by a run
that starts at `retryCount` and performs `n` further backoff sleeps. -/
def backoffDelays (retryCount : Nat) : Nat → List Nat
  | 0 => []
  | n + 1 => min (1000 * 2 ^ retryCount) 10000 :: backoffDelays (retryCount + 1) n

/-- A failure with message `context canceled` (the recurring failure mode
the repository is built around). -/
def cancelError : JSError := ⟨some "context canceled", none, none⟩

/-- A connection-refused failure as `execa` raises it. -/
def connRefusedError : JSError :=
  ⟨some "connect ECONNREFUSED 127.0.0.1:443", some "ECONNREFUSED", none⟩

/-- A DNS-resolution failure as `execa` raises it. -/
def enotfoundError : JSError :=
  ⟨some "getaddrinfo ENOTFOUND registry.npmjs.org", some "ENOTFOUND", none⟩

/-- A generic npm failure: no transient marker in the message, no code,
no signal. -/
def genericNpmError : JSError :=
  ⟨some "npm error could not determine executable to run", none, none⟩

/-- A head match survives extending the list on the right. -/
theorem charsStartWith_append (pat l r : List Char)
    (h : charsStartWith pat l = true) : charsStartWith pat (l ++ r) = true := by
  induction pat generalizing l with
  | nil => rfl
  | cons a as ih =>
    cases l with
    | nil => simp [charsStartWith] at h
    | cons b bs =>
      simp [charsStartWith] at h ⊢
      exact ⟨h.1, ih bs h.2⟩

/-- The empty pattern occurs in every list. -/
theorem charsContain_nil (l : List Char) : charsContain [] l = true := by
  cases l with
  | nil => rfl
  | cons c rest => simp [charsContain, charsStartWith]

/-- An occurrence survives extending the list on the right. -/
theorem charsContain_append_left (pat l r : List Char)
    (h : charsContain pat l = true) : charsContain pat (l ++ r) = true := by
  induction l with
  | nil =>
    cases pat with
    | nil => exact charsContain_nil r
    | cons p ps => simp [charsContain] at h
  | cons c rest ih =>
    simp only [charsContain, Bool.or_eq_true] at h
    rcases h with h | h
    · simp only [List.cons_append, charsContain, Bool.or_eq_true]
      exact Or.inl (charsStartWith_append pat (c :: rest) r h)
    · simp only [List.cons_append, charsContain, Bool.or_eq_true]
      exact Or.inr (ih h)

/-- `jsIncludes` survives extending the string on the right. -/
theorem jsIncludes_append_left (a b pat : String) (h : jsIncludes a pat = true) :
    jsIncludes (a ++ b) pat = true := by
  have hd : (a ++ b).toList = a.toList ++ b.toList := String.data_append a b
  simp only [jsIncludes] at h ⊢
  rw [hd]
  exact charsContain_append_left _ _ _ h

/-- Every timeout-rejection message contains the transient marker
`timed out`, whatever the numeric timeout renders to. -/
theorem jsIncludes_timedOut (x : String) :
    jsIncludes ("Command timed out after " ++ x ++ "ms") "timed out" = true := by
  have h1 : jsIncludes "Command timed out after " "timed out" = true := by decide
  exact jsIncludes_append_left _ "ms" _ (jsIncludes_append_left _ x _ h1)

/-- The timeout rejection is classified transient by the executor. -/
theorem isTransientError_timeoutError (t : Nat) :
    isTransientError (timeoutError t) = JsResult.value true := by
  simp [isTransientError, timeoutError, jsIncludes_timedOut]

/-- Unfolding of one iteration of the retry loop. -/
theorem executeWithRetryGo_succ (cmd : Nat → Option JSError) (maxRetries rc fuel : Nat) :
    executeWithRetryGo cmd maxRetries rc (fuel + 1) =
      if rc ≤ maxRetries then
        match cmd rc with
        | none => ⟨.ok, 1, []⟩
        | some e =>
          match isTransientError e with
          | .thrown t => ⟨.crash t, 1, []⟩
          | .value b =>
            if b ∧ rc < maxRetries then
              let rest := executeWithRetryGo cmd maxRetries (rc + 1) fuel
              ⟨rest.result, rest.attempts + 1, min (1000 * 2 ^ rc) 10000 :: rest.delays⟩
            else ⟨.err e, 1, []⟩
      else ⟨.ok, 0, []⟩ := rfl

/-- A run whose every attempt fails with an executor-transient failure
uses all its fuel: starting at `retryCount` with `retryCount + fuel =
maxRetries`, it performs `fuel + 1` attempts, sleeps the backoff schedule
and propagates the failure of the last attempt. -/
theorem go_all_transient (cmd : Nat → JSError) (maxRetries : Nat)
    (h : ∀ i, isTransientError (cmd i) = JsResult.value true) :
    ∀ fuel retryCount, retryCount + fuel = maxRetries →
      executeWithRetryGo (fun i => some (cmd i)) maxRetries retryCount (fuel + 1) =
        ⟨.err (cmd maxRetries), fuel + 1, backoffDelays retryCount fuel⟩ := by
  intro fuel
  induction fuel with
  | zero =>
    intro rc hrc
    have hrc0 : rc = maxRetries := by omega
    subst hrc0
    rw [executeWithRetryGo_succ, if_pos (le_refl rc)]
    simp [h rc, backoffDelays]
  | succ f ih =>
    intro rc hrc
    have h1 : rc ≤ maxRetries := by omega
    have h2 : rc < maxRetries := by omega
    have hih := ih (rc + 1) (by omega)
    rw [executeWithRetryGo_succ, if_pos h1]
    simp only [h rc, hih]
    simp [backoffDelays, h2]

/-- Structure of an arbitrary run: at least one attempt is performed, and
the recorded delays are exactly the backoff schedule of length
`attempts - 1` starting at `retryCount`. -/
theorem go_trace (cmd : Nat → Option JSError) (maxRetries : Nat) :
    ∀ fuel retryCount, retryCount + fuel = maxRetries →
      1 ≤ (executeWithRetryGo cmd maxRetries retryCount (fuel + 1)).attempts ∧
      (executeWithRetryGo cmd maxRetries retryCount (fuel + 1)).delays =
        backoffDelays retryCount
          ((executeWithRetryGo cmd maxRetries retryCount (fuel + 1)).attempts - 1) := by
  intro fuel
  induction fuel with
  | zero =>
    intro rc hrc
    have hrc0 : rc = maxRetries := by omega
    subst hrc0
    rw [executeWithRetryGo_succ, if_pos (le_refl rc)]
    cases hc : cmd rc with
    | none => exact ⟨by simp, by simp [backoffDelays]⟩
    | some e =>
      cases ht : isTransientError e with
      | thrown t => exact ⟨by simp [ht], by simp [ht, backoffDelays]⟩
      | value b => exact ⟨by simp [ht], by simp [ht, backoffDelays]⟩
  | succ f ih =>
    intro rc hrc
    have h1 : rc ≤ maxRetries := by omega
    have h2 : rc < maxRetries := by omega
    obtain ⟨ha, hd⟩ := ih (rc + 1) (by omega)
    rw [executeWithRetryGo_succ, if_pos h1]
    cases hc : cmd rc with
    | none => exact ⟨by simp, by simp [backoffDelays]⟩
    | some e =>
      cases ht : isTransientError e with
      | thrown t => exact ⟨by simp [ht], by simp [ht, backoffDelays]⟩
      | value b =>
        cases b with
        | false => exact ⟨by simp [ht], by simp [ht, backoffDelays]⟩
        | true =>
          have hsplit :
              (executeWithRetryGo cmd maxRetries (rc + 1) (f + 1)).attempts + 1 - 1 =
                ((executeWithRetryGo cmd maxRetries (rc + 1) (f + 1)).attempts - 1) + 1 := by
            omega
          refine ⟨by simp [ht, h2], ?_⟩
          simp only [ht, eq_self_iff_true, true_and, h2, if_true]
          rw [hsplit, backoffDelays]
          simp [hd]

/-- The backoff schedule has one entry per sleep. -/
theorem backoffDelays_length : ∀ (n rc : Nat), (backoffDelays rc n).length = n := by
  intro n
  induction n with
  | zero => intro rc; rfl
  | succ m ih => intro rc; simp [backoffDelays, ih]

/-- Entry `i` of the backoff schedule starting at `rc` is
`min(1000 * 2 ^ (rc + i), 10000)`. -/
theorem backoffDelays_get :
    ∀ (n rc i : Nat), i < n →
      (backoffDelays rc n).get? i = some (min (1000 * 2 ^ (rc + i)) 10000) := by
  intro n
  induction n with
  | zero => intro rc i h; omega
  | succ m ih =>
    intro rc i h
    cases i with
    | zero => simp [backoffDelays]
    | succ k =>
      have hk : k < m := by omega
      have := ih (rc + 1) k hk
      have harith : rc + 1 + k = rc + (k + 1) := by omega
      rw [harith] at this
      simpa [backoffDelays] using this

/-- C1: For every maxRetries value N, an execute call whose command fails
with a Transient-classified failure on every attempt performs exactly
N + 1 total attempts (the retry loop is strictly sequential: one attempt
per iteration) and then propagates the last Failure to the caller. -/
theorem executeWithRetry_transient_attempts (N : Nat) (cmd : Nat → JSError)
    (h : ∀ i, isTransientError (cmd i) = JsResult.value true) :
    (executeWithRetry (fun i => some (cmd i)) N).attempts = N + 1 ∧
    (executeWithRetry (fun i => some (cmd i)) N).result = ExecResult.err (cmd N) := by
  have hgo := go_all_transient cmd N h N 0 (by omega)
  simp only [executeWithRetry]
  rw [hgo]
  exact ⟨rfl, rfl⟩

/-- Witness for C1: three attempts and propagation of the `context
canceled` failure when maxRetries is 2. -/
theorem executeWithRetry_transient_attempts_witness :
    (executeWithRetry (fun _ => some cancelError) 2).attempts = 2 + 1 ∧
    (executeWithRetry (fun _ => some cancelError) 2).result = ExecResult.err cancelError :=
  executeWithRetry_transient_attempts 2 (fun _ => cancelError) (fun _ => rfl)

/-- C4: For every pair of consecutive attempts i and i+1 within one
execute call, the backoff delay slept between them equals
`min(backoffBase * 2 ^ i, backoffCap)` with the source's base 1000 ms and
cap 10000 ms, and the sequence of delays is monotonically non-decreasing
(it stays at the cap once reached). -/
theorem backoff_delay_formula (cmd : Nat → Option JSError) (N i j : Nat)
    (hi : i < (executeWithRetry cmd N).delays.length)
    (hj : j < (executeWithRetry cmd N).delays.length) (hij : i ≤ j) :
    (executeWithRetry cmd N).delays.get? i = some (min (1000 * 2 ^ i) 10000) ∧
    (executeWithRetry cmd N).delays.get? j = some (min (1000 * 2 ^ j) 10000) ∧
    min (1000 * 2 ^ i) 10000 ≤ min (1000 * 2 ^ j) 10000 := by
  obtain ⟨ha, hd⟩ := go_trace cmd N N 0 (by omega)
  have hdel : (executeWithRetry cmd N).delays =
      backoffDelays 0 ((executeWithRetry cmd N).attempts - 1) := hd
  have hlen : (executeWithRetry cmd N).delays.length =
      (executeWithRetry cmd N).attempts - 1 := by
    rw [hdel, backoffDelays_length]
  rw [hlen] at hi hj
  rw [hdel]
  refine ⟨?_, ?_, ?_⟩
  · simpa using backoffDelays_get _ 0 i hi
  · simpa using backoffDelays_get _ 0 j hj
  · exact min_le_min (Nat.mul_le_mul_left 1000 (Nat.pow_le_pow_right (by omega) hij))
      (le_refl _)

/-- Witness for C4: the first two delays of an always-transient run with
maxRetries 2 are 1000 ms and 2000 ms. -/
theorem backoff_delay_formula_witness :
    (executeWithRetry (fun _ => some cancelError) 2).delays.get? 0 =
      some (min (1000 * 2 ^ 0) 10000) ∧
    (executeWithRetry (fun _ => some cancelError) 2).delays.get? 1 =
      some (min (1000 * 2 ^ 1) 10000) ∧
    min (1000 * 2 ^ 0) 10000 ≤ min (1000 * 2 ^ 1) 10000 :=
  backoff_delay_formula (fun _ => some cancelError) 2 0 1 (by decide) (by decide)
    (by decide)

/-- C5 counterexample: a DNS-resolution failure (`ENOTFOUND`) is
classified Network by the per-task dispatch, yet `executeWithRetry` with
3 remaining retries performs exactly one attempt and propagates it
immediately - `ENOTFOUND` is not in the executor's transient list
(`src/lib/project-initializer.js` lines 108-113), so Network failures are
not all retried as the claim states. -/
theorem dns_failure_not_retried_cex :
    classifyDispatch enotfoundError = JsResult.value DispatchKind.network ∧
    executeWithRetry (fun _ => some enotfoundError) 3 =
      ⟨ExecResult.err enotfoundError, 1, []⟩ :=
  ⟨by decide, by decide⟩

/-- C5 amended: for every execute call with remaining retries > 0, a
failure whose code is `ECONNREFUSED` (connection refused) or `ECONNRESET`
(connection reset) is retried automatically after the backoff sleep, the
same as a Transient failure; a DNS-resolution failure (`ENOTFOUND`) is
not retried and propagates immediately. -/
theorem network_conn_failures_retried (e : JSError) (m : String) (N : Nat)
    (hm : e.message = some m)
    (hc : e.code = some "ECONNREFUSED" ∨ e.code = some "ECONNRESET") :
    (executeWithRetry (fun _ => some e) N).attempts = N + 1 ∧
    (executeWithRetry (fun _ => some e) N).result = ExecResult.err e ∧
    (executeWithRetry (fun _ => some e) N).delays = backoffDelays 0 N := by
  have ht : isTransientError e = JsResult.value true := by
    rcases hc with hc | hc <;> simp [isTransientError, hm, hc]
  have hgo := go_all_transient (fun _ => e) N (fun _ => ht) N 0 (by omega)
  have htr : executeWithRetry (fun _ => some e) N =
      ⟨ExecResult.err e, N + 1, backoffDelays 0 N⟩ := hgo
  rw [htr]
  exact ⟨rfl, rfl, rfl⟩

/-- Witness for C5 (amended) at a connection-refused failure with
maxRetries 1. -/
theorem network_conn_failures_retried_witness :
    (executeWithRetry (fun _ => some connRefusedError) 1).attempts = 1 + 1 ∧
    (executeWithRetry (fun _ => some connRefusedError) 1).result =
      ExecResult.err connRefusedError ∧
    (executeWithRetry (fun _ => some connRefusedError) 1).delays = backoffDelays 0 1 :=
  network_conn_failures_retried connRefusedError "connect ECONNREFUSED 127.0.0.1:443" 1
    rfl (Or.inl rfl)

/-- C2 counterexample: with maxRetries 0 and the default 60000 ms
deadline, a command whose process never exits yields a Failure that is
classified Transient, but the child process spawned by the single attempt
is still running after `execute` returns - the executor never terminates
it (`src/lib/project-initializer.js` lines 70-127 contain no kill), so
the claimed process-leak guarantee fails. -/
theorem timeout_leaves_process_running_cex :
    isTransientError (timeoutError 60000) = JsResult.value true ∧
    (executeWithRetryProc (fun _ => ⟨none, none⟩) 0 60000).result =
      ExecResult.err (timeoutError 60000) ∧
    stillRunningAfterReturn (fun _ => ⟨none, none⟩)
      (executeWithRetryProc (fun _ => ⟨none, none⟩) 0 60000) = 1 :=
  ⟨by decide, by decide, by decide⟩

/-- C2 amended: an attempt that exceeds perAttemptTimeout yields a
Failure classified Transient, but the executor does not terminate the
timed-out process: it merely abandons the `Promise.race`, so when the
processes never exit on their own, every one of the N + 1 spawned
processes is still running after `execute` returns. -/
theorem timeout_transient_no_kill (procs : Nat → ProcAttempt) (N timeout : Nat)
    (h : ∀ i, (procs i).exitsAt = none) :
    isTransientError (timeoutError timeout) = JsResult.value true ∧
    (executeWithRetryProc procs N timeout).attempts = N + 1 ∧
    (executeWithRetryProc procs N timeout).result = ExecResult.err (timeoutError timeout) ∧
    stillRunningAfterReturn procs (executeWithRetryProc procs N timeout) = N + 1 := by
  have hcmd : (fun i => attemptRaise timeout (procs i)) =
      (fun _ : Nat => some (timeoutError timeout)) := by
    funext i
    simp [attemptRaise, h i]
  have hgo := go_all_transient (fun _ => timeoutError timeout) N
      (fun _ => isTransientError_timeoutError timeout) N 0 (by omega)
  have htr : executeWithRetryProc procs N timeout =
      ⟨ExecResult.err (timeoutError timeout), N + 1, backoffDelays 0 N⟩ := by
    simp only [executeWithRetryProc, executeWithRetry]
    rw [hcmd]
    exact hgo
  refine ⟨isTransientError_timeoutError timeout, ?_, ?_, ?_⟩
  · rw [htr]
  · rw [htr]
  · simp only [stillRunningAfterReturn, htr]
    rw [List.countP_eq_length.mpr (fun a _ => by rw [h a]; rfl), List.length_range]

/-- Witness for C2 (amended) with maxRetries 1 and a 500 ms deadline. -/
theorem timeout_transient_no_kill_witness :
    isTransientError (timeoutError 500) = JsResult.value true ∧
    (executeWithRetryProc (fun _ => ⟨none, none⟩) 1 500).attempts = 1 + 1 ∧
    (executeWithRetryProc (fun _ => ⟨none, none⟩) 1 500).result =
      ExecResult.err (timeoutError 500) ∧
    stillRunningAfterReturn (fun _ => ⟨none, none⟩)
      (executeWithRetryProc (fun _ => ⟨none, none⟩) 1 500) = 1 + 1 :=
  timeout_transient_no_kill (fun _ => ⟨none, none⟩) 1 500 (fun _ => rfl)

/-- The outer catch never changes which strategies were attempted. -/
theorem chainOuterCatch_attempted (att : List String) (e : JSError) :
    (chainOuterCatch att e).attempted = att := by
  cases hm : e.message with
  | none => simp [chainOuterCatch, hm]
  | some m =>
    by_cases h : procKind m e <;> simp [chainOuterCatch, hm, h]

/-- C3 counterexample: in the backend chain, when both `npx supabase init`
and `supabase init` fail with a plain generic failure, the chain throws
without ever attempting its last strategy (the `execSync` fallback),
even though that strategy would have succeeded - chain advancement is not
unconditional. -/
theorem supabase_final_strategy_skipped_cex :
    (initializeSupabase (some genericNpmError) (some genericNpmError) none).attempted =
      ["supabase-npx", "supabase-direct"] ∧
    "supabase-final" ∉
      (initializeSupabase (some genericNpmError) (some genericNpmError) none).attempted ∧
    (initializeSupabase (some genericNpmError) (some genericNpmError) none).outcome =
      ChainOutcome.failure supabaseFailedError :=
  ⟨by decide, by decide, by decide⟩

/-- C3 amended: chain advancement is conditional on the failure kind. A
strategy failure that is not process-classified advances the chain to the
next strategy (in both the backend and the CSS-framework chain); a
process-classified failure aborts the whole chain with the `TypeError`
from the missing `errorHandler.handleProcessError`; and the backend
chain's last strategy (the `execSync` fallback) is never attempted for
any failure, because its `context canceled` guard can only hold when the
process-kind dispatch has already crashed the chain. -/
theorem chain_advancement_conditional :
    (∀ e1 m1 directR finalR, e1.message = some m1 → procKind m1 e1 = false →
      "supabase-direct" ∈ (initializeSupabase (some e1) directR finalR).attempted) ∧
    (∀ e1 m1 directR finalR, e1.message = some m1 → procKind m1 e1 = true →
      initializeSupabase (some e1) directR finalR =
        ⟨["supabase-npx"], ChainOutcome.failure handleProcessErrorMissing⟩) ∧
    (∀ npxR directR finalR,
      "supabase-final" ∉ (initializeSupabase npxR directR finalR).attempted) ∧
    (∀ e1 m1 directR localR synthR, e1.message = some m1 → procKind m1 e1 = false →
      "tailwind-direct" ∈ (initializeTailwind (some e1) directR localR synthR).attempted) ∧
    (∀ e1 m1 directR localR synthR, e1.message = some m1 → procKind m1 e1 = true →
      initializeTailwind (some e1) directR localR synthR =
        ⟨["tailwind-npx"], ChainOutcome.failure handleProcessErrorMissing⟩) := by
  refine ⟨?_, ?_, ?_, ?_, ?_⟩
  · intro e1 m1 directR finalR hm hp
    unfold initializeSupabase
    simp only [hm, hp, Bool.false_eq_true, if_false]
    repeat' split
    all_goals (try rw [chainOuterCatch_attempted])
    all_goals decide
  · intro e1 m1 directR finalR hm hp
    unfold initializeSupabase
    simp only [hm, hp, if_true]
    decide
  · intro npxR directR finalR hmem
    unfold initializeSupabase at hmem
    repeat' split at hmem
    all_goals simp_all [chainOuterCatch_attempted]
    all_goals simp_all [procKind]
  · intro e1 m1 directR localR synthR hm hp
    unfold initializeTailwind
    simp only [hm, hp, Bool.false_eq_true, if_false]
    repeat' split
    all_goals (try rw [chainOuterCatch_attempted])
    all_goals decide
  · intro e1 m1 directR localR synthR hm hp
    unfold initializeTailwind
    simp only [hm, hp, if_true]
    decide

/-- Witness for C3 (amended): concrete instances of all five conjuncts. -/
theorem chain_advancement_conditional_witness :
    "supabase-direct" ∈
      (initializeSupabase (some genericNpmError) none none).attempted ∧
    initializeSupabase (some (timeoutError 60000)) none none =
      ⟨["supabase-npx"], ChainOutcome.failure handleProcessErrorMissing⟩ ∧
    "supabase-final" ∉
      (initializeSupabase (some cancelError) (some cancelError) none).attempted ∧
    "tailwind-direct" ∈
      (initializeTailwind (some genericNpmError) none none none).attempted ∧
    initializeTailwind (some (timeoutError 60000)) none none none =
      ⟨["tailwind-npx"], ChainOutcome.failure handleProcessErrorMissing⟩ := by
  obtain ⟨c1, c2, c3, c4, c5⟩ := chain_advancement_conditional
  exact ⟨c1 genericNpmError "npm error could not determine executable to run" none none
      rfl (by decide),
    c2 (timeoutError 60000) "Command timed out after 60000ms" none none rfl (by decide),
    c3 (some cancelError) (some cancelError) none,
    c4 genericNpmError "npm error could not determine executable to run" none none none
      rfl (by decide),
    c5 (timeoutError 60000) "Command timed out after 60000ms" none none none rfl
      (by decide)⟩

/-- C6 counterexample: a chain of always-failing process strategies and an
always-succeeding synthesis strategy does not yield Success when the
process strategies fail with a process-classified failure (here the
executor's own timeout rejection): the first strategy's dispatch crashes
on the missing `errorHandler.handleProcessError`, the remaining
strategies - including the synthesis - are never attempted, and the chain
throws. -/
theorem tailwind_chain_process_failure_cex :
    initializeTailwind (some (timeoutError 60000)) (some (timeoutError 60000))
      (some (timeoutError 60000)) none =
      ⟨["tailwind-npx"], ChainOutcome.failure handleProcessErrorMissing⟩ ∧
    "tailwind-synth" ∉
      (initializeTailwind (some (timeoutError 60000)) (some (timeoutError 60000))
        (some (timeoutError 60000)) none).attempted :=
  ⟨by decide, by decide⟩

/-- C6 amended: when every failing process strategy of the CSS-framework
chain fails with a failure that is not process-classified and the
synthesis strategy succeeds, the chain returns overall Success via the
synthesis strategy, and each failing process strategy is attempted
exactly once (the chain adds no retries of its own). -/
theorem tailwind_chain_generic_failures_success
    (e1 e2 e3 : JSError) (m1 m2 m3 : String)
    (h1 : e1.message = some m1) (k1 : procKind m1 e1 = false)
    (h2 : e2.message = some m2) (k2 : procKind m2 e2 = false)
    (h3 : e3.message = some m3) (k3 : procKind m3 e3 = false) :
    initializeTailwind (some e1) (some e2) (some e3) none =
      ⟨["tailwind-npx", "tailwind-direct", "tailwind-local", "tailwind-synth"],
        ChainOutcome.success "tailwind-synth"⟩ ∧
    (initializeTailwind (some e1) (some e2) (some e3) none).attempted.count
      "tailwind-npx" = 1 ∧
    (initializeTailwind (some e1) (some e2) (some e3) none).attempted.count
      "tailwind-direct" = 1 ∧
    (initializeTailwind (some e1) (some e2) (some e3) none).attempted.count
      "tailwind-local" = 1 := by
  have hmain : initializeTailwind (some e1) (some e2) (some e3) none =
      ⟨["tailwind-npx", "tailwind-direct", "tailwind-local", "tailwind-synth"],
        ChainOutcome.success "tailwind-synth"⟩ := by
    simp [initializeTailwind, h1, k1, h2, k2, h3, k3]
  refine ⟨hmain, ?_, ?_, ?_⟩ <;> (rw [hmain]; decide)

/-- Witness for C6 (amended): three generic npm failures, then the
synthesis succeeds. -/
theorem tailwind_chain_generic_failures_success_witness :
    initializeTailwind (some genericNpmError) (some genericNpmError)
      (some genericNpmError) none =
      ⟨["tailwind-npx", "tailwind-direct", "tailwind-local", "tailwind-synth"],
        ChainOutcome.success "tailwind-synth"⟩ ∧
    (initializeTailwind (some genericNpmError) (some genericNpmError)
      (some genericNpmError) none).attempted.count "tailwind-npx" = 1 ∧
    (initializeTailwind (some genericNpmError) (some genericNpmError)
      (some genericNpmError) none).attempted.count "tailwind-direct" = 1 ∧
    (initializeTailwind (some genericNpmError) (some genericNpmError)
      (some genericNpmError) none).attempted.count "tailwind-local" = 1 :=
  tailwind_chain_generic_failures_success genericNpmError genericNpmError genericNpmError
    "npm error could not determine executable to run"
    "npm error could not determine executable to run"
    "npm error could not determine executable to run"
    rfl (by decide) rfl (by decide) rfl (by decide)

/-- C7 counterexample: a failure value whose `message` field is absent is
not classified - both the executor's transient test and the per-task
dispatch classifier throw a `TypeError` while reading
`message.includes`, instead of producing an ErrorKind. -/
theorem classifier_throws_on_missing_message_cex :
    isTransientError ⟨none, some "ECONNRESET", none⟩ =
      JsResult.thrown undefinedIncludesError ∧
    classifyDispatch ⟨none, some "ECONNRESET", none⟩ =
      JsResult.thrown undefinedIncludesError :=
  ⟨rfl, rfl⟩

/-- C7 amended: the classifiers are pure and total on every failure value
whose `message` field is a string - such a value produces exactly one
classification and nothing is thrown; a failure whose `message` is absent
or not a string instead makes the classification itself throw. -/
theorem classifier_total_on_string_message (e : JSError) (m : String)
    (hm : e.message = some m) :
    (∃ b, isTransientError e = JsResult.value b) ∧
    (∃ k, classifyDispatch e = JsResult.value k) := by
  constructor
  · exact ⟨jsIncludes m "context canceled" || jsIncludes m "timed out" ||
      e.code == some "ETIMEDOUT" || e.code == some "ECONNRESET" ||
      e.code == some "ECONNREFUSED", by simp [isTransientError, hm]⟩
  · by_cases hp : procKind m e
    · exact ⟨.process, by simp [classifyDispatch, hm, hp]⟩
    · by_cases hn : (e.code == some "ENOTFOUND" || e.code == some "ECONNREFUSED" ||
          e.code == some "ECONNRESET") = true
      · exact ⟨.network, by simp [classifyDispatch, hm, hp, hn]⟩
      · exact ⟨.generic, by simp [classifyDispatch, hm, hp, hn]⟩

/-- Witness for C7 (amended) at a generic npm failure. -/
theorem classifier_total_on_string_message_witness :
    (∃ b, isTransientError genericNpmError = JsResult.value b) ∧
    (∃ k, classifyDispatch genericNpmError = JsResult.value k) :=
  classifier_total_on_string_message genericNpmError
    "npm error could not determine executable to run" rfl

/-- C8: a failure of a Fatal task (app-shell creation, template
retrieval, backend initialization) aborts all subsequent tasks - the
executed list stops at the failing task and the failure propagates -
while the version-control-initialization task never aborts the run: with
every earlier task succeeding, the run completes successfully whatever
the git probe and the git operations do. -/
theorem initialize_fatal_recoverable :
    (∀ e t s i tw env sc g go, initializeProject (some e) t s i tw env sc g go =
      ⟨["createNextApp"], some e⟩) ∧
    (∀ e s i tw env sc g go, initializeProject none (some e) s i tw env sc g go =
      ⟨["createNextApp", "template"], some e⟩) ∧
    (∀ e i tw env sc g go, initializeProject none none (some e) i tw env sc g go =
      ⟨["createNextApp", "template", "supabase"], some e⟩) ∧
    (∀ g go, initializeProject none none none none none none none g go =
      ⟨["createNextApp", "template", "supabase", "installDependencies", "tailwind",
        "configureEnvironment", "runInitScript", "git"], none⟩) := by
  refine ⟨fun e t s i tw env sc g go => rfl, fun e s i tw env sc g go => rfl,
    fun e i tw env sc g go => rfl, fun g go => ?_⟩
  cases g <;> cases go <;> rfl

/-- The two config paths of the synthesis strategy are distinct. -/
theorem joinPath_tailwind_ne_postcss (p : String) :
    joinPath p "tailwind.config.js" ≠ joinPath p "postcss.config.js" := by
  intro h
  have hl := congrArg String.length h
  simp only [joinPath, String.length_append] at hl
  have h1 : ("tailwind.config.js" : String).length = 18 := by decide
  have h2 : ("postcss.config.js" : String).length = 17 := by decide
  rw [h1, h2] at hl
  omega

/-- C9: the CSS-framework synthesis strategy is idempotent - running it
twice on the same directory leaves the same file system as running it
once, and both runs write the byte-identical fixed `tailwind.config.js`
and `postcss.config.js` contents. -/
theorem tailwind_synthesis_idempotent (p : String) (s : FsState) :
    initializeTailwindSynthesis p (initializeTailwindSynthesis p s) =
      initializeTailwindSynthesis p s ∧
    initializeTailwindSynthesis p s (joinPath p "tailwind.config.js") =
      some tailwindConfig ∧
    initializeTailwindSynthesis p s (joinPath p "postcss.config.js") =
      some postcssConfig := by
  refine ⟨?_, ?_, ?_⟩
  · funext q
    simp only [initializeTailwindSynthesis, fsWrite]
    by_cases hq1 : q = joinPath p "postcss.config.js" <;>
      by_cases hq2 : q = joinPath p "tailwind.config.js" <;> simp [hq1, hq2]
  · simp only [initializeTailwindSynthesis, fsWrite]
    rw [if_neg (joinPath_tailwind_ne_postcss p)]
    simp
  · simp [initializeTailwindSynthesis, fsWrite]

/-- C10: for every failure that the per-task dispatch recognizes as a
process failure, the report step itself raises - `handleProcessError` is
not among the error-handler module's exports, so invoking it throws a
`TypeError` and the caller observes that secondary error instead of a
report of the original failure. -/
theorem handleProcessError_missing_raises (e : JSError) (m : String)
    (hm : e.message = some m) (hp : procKind m e = true) :
    "handleProcessError" ∉ errorHandlerExports ∧
    dispatchReport e = JsResult.thrown handleProcessErrorMissing := by
  refine ⟨by decide, ?_⟩
  have hcd : classifyDispatch e = JsResult.value DispatchKind.process := by
    simp [classifyDispatch, hm, hp]
  calc dispatchReport e = callErrorHandler "handleProcessError" e := by
        simp [dispatchReport, hcd]
    _ = JsResult.thrown handleProcessErrorMissing := by
        simp only [callErrorHandler]
        rw [if_neg (by decide)]
        decide

/-- Witness for C10 at the executor's timeout rejection. -/
theorem handleProcessError_missing_raises_witness :
    "handleProcessError" ∉ errorHandlerExports ∧
    dispatchReport (timeoutError 60000) = JsResult.thrown handleProcessErrorMissing :=
  handleProcessError_missing_raises (timeoutError 60000)
    "Command timed out after 60000ms" rfl (by decide)
